import Mathlib

/-!
Shallow embedding of the background-task lifecycle and deferred-delivery
coordinator of this repository, together with theorems settling the
specification claims about it.

The embedding covers:
* the task store of src/api/simple_background_agent.py
  (ReActBackgroundAgent: create_task, the status mutations performed by
  run_background_task, get_task_status, cleanup_old_tasks);
* the buffering, monitor loop, delivery gate and message formatting of
  src/examples/test_bidirectional.py (EnhancedBackgroundTaskManager);
* the delivery gate variant of src/api/realtime_service.py
  (EnhancedBackgroundTaskManager adapted to a frontend websocket).

Python floats used as timestamps are modelled as integers (only their
ordering and subtraction matter to the claims); Python dicts are modelled
as association lists with first-match lookup and prepend insertion, which
gives the same lookup semantics; the blocking external calls (LLM call,
websocket send) are modelled by their outcome.
-/

namespace SBA

/-- The structured analysis payload built by parse_agent_result in
simple_background_agent.py: a dict with keys action, message,
user_request, timestamp, status. -/
structure AnalysisResult where
  action : String
  message : String
  user_request : String
  timestamp : Int
  status : String
deriving DecidableEq

/-- The TaskResult dataclass of simple_background_agent.py.  result and
error default to None, hence Option; timestamps default to 0. -/
structure TaskResult where
  task_id : String
  status : String
  result : Option AnalysisResult := none
  error : Option String := none
  created_at : Int := 0
  completed_at : Int := 0
  message : String := ""
deriving DecidableEq

/-- The tasks dict of ReActBackgroundAgent, as an association list with
first-match lookup (same observable semantics as the Python dict). -/
abbrev TaskMap : Type := List (String × TaskResult)

/-- Dict lookup: first entry whose key matches. -/
def lookupTask (tasks : TaskMap) (task_id : String) : Option TaskResult :=
  match tasks with
  | [] => none
  | p :: rest => if p.1 = task_id then some p.2 else lookupTask rest task_id

/-- The default pseudo-task that get_task_status returns for an unknown
id: TaskResult(task_id=task_id, status="not_found", error="Task not found"). -/
def notFoundTask (task_id : String) : TaskResult :=
  { task_id := task_id, status := "not_found", error := some "Task not found" }

/-- ReActBackgroundAgent.get_task_status: self.tasks.get(task_id, default
not-found pseudo-task).  Total by construction, mirroring dict.get. -/
def get_task_status (tasks : TaskMap) (task_id : String) : TaskResult :=
  (lookupTask tasks task_id).getD (notFoundTask task_id)

/-- The mutable fields of ReActBackgroundAgent relevant to task creation. -/
structure AgentState where
  tasks : TaskMap := []
  task_counter : Nat := 0

/-- ReActBackgroundAgent.create_task: bump the counter, build the id
task_{counter}_{int(time)}, insert a pending task, return the id.  The
background thread it spawns is modelled separately by run_background_task. -/
def create_task (st : AgentState) (user_message : String) (now : Int) :
    String × AgentState :=
  let counter := st.task_counter + 1
  let task_id := "task_" ++ toString counter ++ "_" ++ toString now
  let task : TaskResult :=
    { task_id := task_id, status := "pending", created_at := now,
      message := "Processing: " ++ user_message.take 50 ++ "..." }
  (task_id, { tasks := (task_id, task) :: st.tasks, task_counter := counter })

/-- The guarded in-place update pattern used inside run_background_task:
with the lock held, if task_id in self.tasks then mutate that entry
(entries with other keys are untouched). -/
def updateTask (tasks : TaskMap) (task_id : String)
    (f : TaskResult → TaskResult) : TaskMap :=
  match tasks with
  | [] => []
  | p :: rest =>
    (if p.1 = task_id then (p.1, f p.2) else p) :: updateTask rest task_id f

/-- First with-lock block of run_background_task: status="running",
message="Task is running...". -/
def setRunning (tasks : TaskMap) (task_id : String) : TaskMap :=
  updateTask tasks task_id fun t =>
    { t with status := "running", message := "Task is running..." }

/-- Success with-lock block of run_background_task: status="completed",
result set, completed_at stamped, message updated. -/
def setCompleted (tasks : TaskMap) (task_id : String) (result : AnalysisResult)
    (now : Int) : TaskMap :=
  updateTask tasks task_id fun t =>
    { t with status := "completed", result := some result, completed_at := now,
             message := "Task completed successfully" }

/-- Except-branch with-lock block of run_background_task: status="error",
error set, completed_at stamped, message updated. -/
def setError (tasks : TaskMap) (task_id : String) (e : String) (now : Int) :
    TaskMap :=
  updateTask tasks task_id fun t =>
    { t with status := "error", error := some e, completed_at := now,
             message := "Task failed: " ++ e }

/-- ReActBackgroundAgent.run_background_task, with the agent.invoke call
modelled by its outcome: success yields the parsed AnalysisResult, an
exception yields its message.  The try block first sets running; the
invoke outcome then determines the terminal mutation. -/
def run_background_task (tasks0 : TaskMap) (task_id : String)
    (outcome : Except String AnalysisResult) (now : Int) : TaskMap :=
  match outcome with
  | .ok r => setCompleted (setRunning tasks0 task_id) task_id r now
  | .error e => setError (setRunning tasks0 task_id) task_id e now

/-- The successive task-map states visible to a poller while
run_background_task executes: before it starts, after the running
mutation, and after the terminal mutation. -/
def run_background_task_states (tasks0 : TaskMap) (task_id : String)
    (outcome : Except String AnalysisResult) (now : Int) : List TaskMap :=
  [tasks0, setRunning tasks0 task_id, run_background_task tasks0 task_id outcome now]

/-- The sequence of status strings a poller observes through
get_task_status while run_background_task executes. -/
def observedStatuses (tasks0 : TaskMap) (task_id : String)
    (outcome : Except String AnalysisResult) (now : Int) : List String :=
  (run_background_task_states tasks0 task_id outcome now).map
    fun m => (get_task_status m task_id).status

/-- Position of a status along the forward lifecycle
pending (0) to running (1) to completed/error (2). -/
def statusRank : String → Nat
  | "pending" => 0
  | "running" => 1
  | "completed" => 2
  | "error" => 2
  | _ => 0

/-- ReActBackgroundAgent.cleanup_old_tasks: collect the ids of tasks with
current_time - created_at > max_age_seconds, then delete them. -/
def cleanup_old_tasks (tasks : TaskMap) (current_time : Int)
    (max_age_seconds : Int) : TaskMap :=
  let to_remove :=
    (tasks.filter fun p => current_time - p.2.created_at > max_age_seconds).map
      (fun p => p.1)
  tasks.filter fun p => ¬ p.1 ∈ to_remove

end SBA

namespace TB

/-- A buffered_item dict of test_bidirectional.py: keys type
("success" or "error"), task_id, message. -/
structure BufferedItem where
  type : String
  task_id : String
  message : String
deriving DecidableEq

/-- The combination step of deliver_pending_results (both files copy the
same code; realtime_service.py only re-encodes the bullet glyph): one
item is delivered verbatim, several are joined under an introductory
line, one bullet line per item, in list order. -/
def combineMessages : List BufferedItem → String
  | [x] => x.message
  | l => "Here are the results from the background tasks:\n" ++
      String.intercalate "\n" (l.map fun r => "• " ++ r.message)

/-- The buffer drain performed by a delivery attempt that passes the
gate: an empty buffer yields no message and stays empty; otherwise the
combined message is produced and the buffer is cleared
(self.pending_results.clear() at the end of deliver_pending_results). -/
def drainForDelivery (pending_results : List BufferedItem) :
    Option String × List BufferedItem :=
  if pending_results = [] then (none, pending_results)
  else (some (combineMessages pending_results), [])

/-- The gate-relevant state of EnhancedBackgroundTaskManager in
test_bidirectional.py.  connection records whether self.connection is
set (not None). -/
structure TBState where
  pending_results : List BufferedItem
  connection : Bool
  user_speaking : Bool
  response_in_progress : Bool
deriving DecidableEq

/-- EnhancedBackgroundTaskManager.deliver_pending_results of
test_bidirectional.py: return untouched when the buffer is empty, the
connection is unset, or a response is in progress; otherwise send the
combined message (the try/except around the send clears the buffer even
when the send raises) and clear the buffer.  The second component is the
message handed to connection.conversation.item.create, none when no send
is attempted. -/
def deliver_pending_results (s : TBState) : TBState × Option String :=
  if s.pending_results = [] ∨ s.connection = false ∨ s.response_in_progress = true then
    (s, none)
  else
    ({ s with pending_results := [] }, some (combineMessages s.pending_results))

/-- EnhancedBackgroundTaskManager.set_user_speaking of
test_bidirectional.py: record the flag; whenever called with speaking
false it schedules deliver_pending_results (asyncio.create_task).  The
boolean result records whether a delivery attempt was scheduled. -/
def set_user_speaking (s : TBState) (speaking : Bool) : TBState × Bool :=
  let s1 := { s with user_speaking := speaking }
  if speaking then (s1, false) else (s1, true)

/-- The voice-engine events of the pump_model dispatch that touch the
delivery gate. -/
inductive VoiceEvent
  | speech_started
  | speech_stopped
  | response_started
  | response_done
deriving DecidableEq

/-- The pump_model event dispatch of test_bidirectional.py restricted to
the gate: speech events call set_user_speaking, response events set
response_in_progress.  The boolean records whether the event scheduled a
delivery attempt. -/
def handleEvent (s : TBState) (e : VoiceEvent) : TBState × Bool :=
  match e with
  | .speech_started => set_user_speaking s true
  | .speech_stopped => set_user_speaking s false
  | .response_started => ({ s with response_in_progress := true }, false)
  | .response_done => ({ s with response_in_progress := false }, false)

/-- EnhancedBackgroundTaskManager.create_completion_message: take the
message field of the result dict (dict.get default
"Conversation insights gathered"), truncate past 200 characters with an
ellipsis, and prepend the fixed prefix. -/
def create_completion_message (result_message : Option String) : String :=
  let message := result_message.getD "Conversation insights gathered"
  let message := if message.length > 200 then message.take 200 ++ "..." else message
  "🧠 Conversation analysis: " ++ message

/-- The item pushed by buffer_result for a completed task: type
"success" and the completion message built from the result. -/
def buffer_success_item (task_id : String) (result_message : Option String) :
    BufferedItem :=
  { type := "success", task_id := task_id,
    message := create_completion_message result_message }

/-- The item pushed by buffer_error for a failed task: type "error" and
the fixed failure sentence around the error text. -/
def buffer_error_item (task_id : String) (error : String) : BufferedItem :=
  { type := "error", task_id := task_id,
    message := "❌ Background task failed: " ++ error ++
      ". The main conversation can continue normally." }

/-- What one iteration of the monitor_task while-loop decides. -/
inductive MonitorStep
  | exit_push (item : BufferedItem)
  | continue_loop
deriving DecidableEq

/-- The body of EnhancedBackgroundTaskManager.monitor_task in
test_bidirectional.py, applied to one polled snapshot: on status
"completed" push the success item and break; on "error" push the error
item and break; on any other status (pending, running, not_found) sleep
and loop again.  The error text is rendered as the f-string renders the
error field (None prints as "None"). -/
def monitor_iteration (task_id : String) (status : SBA.TaskResult) : MonitorStep :=
  if status.status = "completed" then
    .exit_push (buffer_success_item task_id (status.result.map fun r => r.message))
  else if status.status = "error" then
    .exit_push (buffer_error_item task_id (status.error.getD "None"))
  else
    .continue_loop

/-- The monitor_task while-loop run against a finite list of successive
poll results.  Nothing inside the loop removes task_id from
active_tasks (buffer_result and buffer_error only set the delivered
flag), so the while-condition stays true throughout; the loop can only
leave through one of the two break statements.  some item means the loop
exited after pushing item; none means it is still polling after
consuming every listed snapshot. -/
def monitor_task (task_id : String) : List SBA.TaskResult → Option BufferedItem
  | [] => none
  | status :: rest =>
    match monitor_iteration task_id status with
    | .exit_push item => some item
    | .continue_loop => monitor_task task_id rest

end TB

namespace RS

/-- The gate-relevant state of EnhancedBackgroundTaskManager in
realtime_service.py.  ws_connected records whether
realtime_service.frontend_websocket is set and its client_state is
CONNECTED. -/
structure RSState where
  pending_results : List TB.BufferedItem
  ws_connected : Bool
  user_speaking : Bool
  response_in_progress : Bool
deriving DecidableEq

/-- EnhancedBackgroundTaskManager.deliver_pending_results of
realtime_service.py: return untouched when the buffer is empty or a
response is in progress; then, if the frontend websocket is dead, clear
the buffer without sending; otherwise send the combined message to the
frontend and clear the buffer.  The message construction is the same
copy-pasted code as in test_bidirectional.py. -/
def deliver_pending_results (s : RSState) : RSState × Option String :=
  if s.pending_results = [] ∨ s.response_in_progress = true then
    (s, none)
  else if s.ws_connected = false then
    ({ s with pending_results := [] }, none)
  else
    ({ s with pending_results := [] }, some (TB.combineMessages s.pending_results))

/-- EnhancedBackgroundTaskManager.set_user_speaking of
realtime_service.py: record the flag; when called with speaking false it
schedules deliver_pending_results only if the frontend websocket is
connected, and otherwise clears the pending buffer on the spot. -/
def set_user_speaking (s : RSState) (speaking : Bool) : RSState × Option String :=
  let s1 := { s with user_speaking := speaking }
  if speaking then (s1, none)
  else if s1.ws_connected then deliver_pending_results s1
  else ({ s1 with pending_results := [] }, none)

/-- The create_completion_message copy in realtime_service.py: same
dict.get default and 200-character truncation as the
test_bidirectional.py builder, but the prefix literal stored in that
file is double-encoded: its bytes are C3 B0 C5 B8 C2 A7 C2 A0 (the
UTF-8 of the four characters U+00F0 U+0178 U+00A7 U+00A0) rather than
F0 9F A7 A0 (the brain emoji), embedded here byte-faithfully. -/
def create_completion_message (result_message : Option String) : String :=
  let message := result_message.getD "Conversation insights gathered"
  let message := if message.length > 200 then message.take 200 ++ "..." else message
  "\u00F0\u0178\u00A7\u00A0 Conversation analysis: " ++ message

end RS

/-! ## Helper lemmas -/

/-- Looking up the mutated id after updateTask sees the mutation applied
to whatever the lookup saw before. -/
theorem lookupTask_updateTask_self (tasks : SBA.TaskMap) (task_id : String)
    (f : SBA.TaskResult → SBA.TaskResult) :
    SBA.lookupTask (SBA.updateTask tasks task_id f) task_id =
      (SBA.lookupTask tasks task_id).map f := by
  induction tasks with
  | nil => rfl
  | cons p rest ih =>
    by_cases h : p.1 = task_id
    · simp [SBA.updateTask, SBA.lookupTask, h, ih]
    · simp [SBA.updateTask, SBA.lookupTask, h, ih]

/-- updateTask on an absent id is a no-op. -/
theorem updateTask_of_lookupTask_none (tasks : SBA.TaskMap) (task_id : String)
    (f : SBA.TaskResult → SBA.TaskResult)
    (h : SBA.lookupTask tasks task_id = none) :
    SBA.updateTask tasks task_id f = tasks := by
  induction tasks with
  | nil => rfl
  | cons p rest ih =>
    by_cases hk : p.1 = task_id
    · simp [SBA.lookupTask, hk] at h
    · simp [SBA.lookupTask, hk] at h
      simp [SBA.updateTask, hk, ih h]

/-! ## Claims -/

/-- Claim C9: for every task id, including unknown ones, get_task_status
returns a task value (it is total by construction, mirroring dict.get,
so it never raises); on an unknown id the returned pseudo-task has
status not_found, and on a known id it returns the stored snapshot. -/
theorem get_task_status_total (tasks : SBA.TaskMap) (task_id : String) :
    (SBA.lookupTask tasks task_id = none →
      SBA.get_task_status tasks task_id = SBA.notFoundTask task_id ∧
      (SBA.get_task_status tasks task_id).status = "not_found") ∧
    ∀ t, SBA.lookupTask tasks task_id = some t →
      SBA.get_task_status tasks task_id = t := by
  constructor
  · intro h
    rw [SBA.get_task_status, h]
    exact ⟨rfl, rfl⟩
  · intro t h
    rw [SBA.get_task_status, h]
    rfl

/-- Witness for C9 at a concrete unknown id. -/
theorem get_task_status_total_witness :
    SBA.get_task_status [] "ghost" = SBA.notFoundTask "ghost" ∧
    (SBA.get_task_status [] "ghost").status = "not_found" :=
  (get_task_status_total [] "ghost").1 rfl

/-- Claim C8: with distinct task ids, reaping deletes exactly the tasks
whose created_at is older than the cutoff current_time minus
max_age_seconds, regardless of status, and keeps every other entry
unchanged (the survivors are literally the filtered original list). -/
theorem cleanup_old_tasks_spec (tasks : SBA.TaskMap)
    (current_time max_age_seconds : Int)
    (hnd : (tasks.map Prod.fst).Nodup) :
    SBA.cleanup_old_tasks tasks current_time max_age_seconds =
      tasks.filter (fun p => ¬ current_time - p.2.created_at > max_age_seconds) ∧
    ∀ p : String × SBA.TaskResult,
      p ∈ SBA.cleanup_old_tasks tasks current_time max_age_seconds ↔
        p ∈ tasks ∧ ¬ p.2.created_at < current_time - max_age_seconds := by
  have key : ∀ p ∈ tasks,
      (p.1 ∈ ((tasks.filter fun q =>
          current_time - q.2.created_at > max_age_seconds).map (fun q => q.1)) ↔
        current_time - p.2.created_at > max_age_seconds) := by
    intro p hp
    constructor
    · intro hmem
      rcases List.mem_map.1 hmem with ⟨q, hq, hqp⟩
      rcases List.mem_filter.1 hq with ⟨hq1, hq2⟩
      have hqe : q = p := List.inj_on_of_nodup_map hnd hq1 hp hqp
      rw [← hqe]
      simpa using hq2
    · intro hold
      exact List.mem_map.2 ⟨p, List.mem_filter.2 ⟨hp, by simpa using hold⟩, rfl⟩
  have heq : SBA.cleanup_old_tasks tasks current_time max_age_seconds =
      tasks.filter (fun p => ¬ current_time - p.2.created_at > max_age_seconds) := by
    unfold SBA.cleanup_old_tasks
    refine List.filter_congr ?_
    intro p hp
    have hk := key p hp
    by_cases hbc : current_time - p.2.created_at > max_age_seconds <;>
      simp [hbc, hk]
  refine ⟨heq, ?_⟩
  intro p
  rw [heq, List.mem_filter]
  constructor
  · rintro ⟨h1, h2⟩
    refine ⟨h1, ?_⟩
    simp only [decide_eq_true_eq] at h2
    omega
  · rintro ⟨h1, h2⟩
    refine ⟨h1, ?_⟩
    simp only [decide_eq_true_eq]
    omega

/-- Witness for C8: one stale task reaped, one fresh task kept. -/
theorem cleanup_old_tasks_spec_witness :
    SBA.cleanup_old_tasks
        [("a", { task_id := "a", status := "pending", created_at := 0 }),
         ("b", { task_id := "b", status := "completed", created_at := 90 })] 100 50 =
      [("b", { task_id := "b", status := "completed", created_at := 90 })] := by
  have h := (cleanup_old_tasks_spec
      [("a", { task_id := "a", status := "pending", created_at := 0 }),
       ("b", { task_id := "b", status := "completed", created_at := 90 })] 100 50
      (by decide)).1
  rw [h]
  decide

/-- Helper for C2: from any map holding a fresh pending task (result and
error unset), the worker thread makes the observed status move
pending, running, then terminal, and sets exactly one of result/error. -/
theorem run_background_task_observed (tasks0 : SBA.TaskMap) (task_id : String)
    (t0 : SBA.TaskResult) (outcome : Except String SBA.AnalysisResult) (later : Int)
    (hlk : SBA.lookupTask tasks0 task_id = some t0)
    (h0 : t0.status = "pending") (hr : t0.result = none) (he : t0.error = none) :
    SBA.observedStatuses tasks0 task_id outcome later =
      ["pending", "running",
        match outcome with | .ok _ => "completed" | .error _ => "error"] ∧
    List.Chain' (fun a b => SBA.statusRank a ≤ SBA.statusRank b)
      (SBA.observedStatuses tasks0 task_id outcome later) ∧
    (((SBA.get_task_status (SBA.run_background_task tasks0 task_id outcome later)
          task_id).result ≠ none ∧
      (SBA.get_task_status (SBA.run_background_task tasks0 task_id outcome later)
          task_id).error = none) ∨
     ((SBA.get_task_status (SBA.run_background_task tasks0 task_id outcome later)
          task_id).result = none ∧
      (SBA.get_task_status (SBA.run_background_task tasks0 task_id outcome later)
          task_id).error ≠ none)) := by
  have hobs : SBA.observedStatuses tasks0 task_id outcome later =
      ["pending", "running",
        match outcome with | .ok _ => "completed" | .error _ => "error"] := by
    cases outcome with
    | ok r =>
      simp [SBA.observedStatuses, SBA.run_background_task_states,
        SBA.run_background_task, SBA.setRunning, SBA.setCompleted,
        SBA.get_task_status, lookupTask_updateTask_self, hlk, h0]
    | error e =>
      simp [SBA.observedStatuses, SBA.run_background_task_states,
        SBA.run_background_task, SBA.setRunning, SBA.setError,
        SBA.get_task_status, lookupTask_updateTask_self, hlk, h0]
  refine ⟨hobs, ?_, ?_⟩
  · rw [hobs]
    cases outcome with
    | ok r =>
      show List.Chain' (fun a b => SBA.statusRank a ≤ SBA.statusRank b)
        ["pending", "running", "completed"]
      exact List.chain'_cons.2 ⟨by decide,
        List.chain'_cons.2 ⟨by decide, List.chain'_singleton _⟩⟩
    | error e =>
      show List.Chain' (fun a b => SBA.statusRank a ≤ SBA.statusRank b)
        ["pending", "running", "error"]
      exact List.chain'_cons.2 ⟨by decide,
        List.chain'_cons.2 ⟨by decide, List.chain'_singleton _⟩⟩
  · cases outcome with
    | ok r =>
      left
      simp [SBA.run_background_task, SBA.setRunning, SBA.setCompleted,
        SBA.get_task_status, lookupTask_updateTask_self, hlk, he]
    | error e =>
      right
      simp [SBA.run_background_task, SBA.setRunning, SBA.setError,
        SBA.get_task_status, lookupTask_updateTask_self, hlk, hr]

/-- Claim C2: for every task created by create_task and either outcome of
the worker, the status observed through get_task_status moves only
forward along pending, running, then completed or error (its rank never
decreases), and in the terminal state exactly one of result and error is
set. -/
theorem task_status_forward_exclusive (st : SBA.AgentState) (user_message : String)
    (now later : Int) (outcome : Except String SBA.AnalysisResult) :
    SBA.observedStatuses (SBA.create_task st user_message now).2.tasks
        (SBA.create_task st user_message now).1 outcome later =
      ["pending", "running",
        match outcome with | .ok _ => "completed" | .error _ => "error"] ∧
    List.Chain' (fun a b => SBA.statusRank a ≤ SBA.statusRank b)
      (SBA.observedStatuses (SBA.create_task st user_message now).2.tasks
        (SBA.create_task st user_message now).1 outcome later) ∧
    (((SBA.get_task_status (SBA.run_background_task
          (SBA.create_task st user_message now).2.tasks
          (SBA.create_task st user_message now).1 outcome later)
        (SBA.create_task st user_message now).1).result ≠ none ∧
      (SBA.get_task_status (SBA.run_background_task
          (SBA.create_task st user_message now).2.tasks
          (SBA.create_task st user_message now).1 outcome later)
        (SBA.create_task st user_message now).1).error = none) ∨
     ((SBA.get_task_status (SBA.run_background_task
          (SBA.create_task st user_message now).2.tasks
          (SBA.create_task st user_message now).1 outcome later)
        (SBA.create_task st user_message now).1).result = none ∧
      (SBA.get_task_status (SBA.run_background_task
          (SBA.create_task st user_message now).2.tasks
          (SBA.create_task st user_message now).1 outcome later)
        (SBA.create_task st user_message now).1).error ≠ none)) := by
  refine run_background_task_observed _ _
    { task_id := "task_" ++ toString (st.task_counter + 1) ++ "_" ++ toString now,
      status := "pending", created_at := now,
      message := "Processing: " ++ user_message.take 50 ++ "..." }
    outcome later ?_ rfl rfl rfl
  simp [SBA.create_task, SBA.lookupTask]

/-- Counterexample for C5: a task already terminal (completed, result
set) is not left unchanged by setError; its status flips to error and
afterwards result and error are both set. -/
theorem mutators_terminal_noop_counterexample :
    (SBA.get_task_status (SBA.setError [("t1", { task_id := "t1", status := "completed", result := some { action := "conversation_analysis", message := "m", user_request := "u", timestamp := 0, status := "success" }, completed_at := 1 })] "t1" "boom" 5) "t1").status = "error" ∧
    (SBA.get_task_status (SBA.setError [("t1", { task_id := "t1", status := "completed", result := some { action := "conversation_analysis", message := "m", user_request := "u", timestamp := 0, status := "success" }, completed_at := 1 })] "t1" "boom" 5) "t1").result ≠ none ∧
    (SBA.get_task_status (SBA.setError [("t1", { task_id := "t1", status := "completed", result := some { action := "conversation_analysis", message := "m", user_request := "u", timestamp := 0, status := "success" }, completed_at := 1 })] "t1" "boom" 5) "t1").error ≠ none := by
  decide

/-- Claim C5 amended: the status mutators guard only on the presence of
the task id.  On an absent id each is a no-op, but on a present task
they overwrite status, result or error and message unconditionally, even
when the stored status is already terminal; there is no
idempotent-on-terminal guard. -/
theorem mutators_overwrite_unconditionally (tasks : SBA.TaskMap) (task_id : String)
    (r : SBA.AnalysisResult) (e : String) (now : Int) :
    (∀ t, SBA.lookupTask tasks task_id = some t →
      SBA.lookupTask (SBA.setRunning tasks task_id) task_id =
        some { t with status := "running", message := "Task is running..." } ∧
      SBA.lookupTask (SBA.setCompleted tasks task_id r now) task_id =
        some { t with status := "completed", result := some r, completed_at := now,
                      message := "Task completed successfully" } ∧
      SBA.lookupTask (SBA.setError tasks task_id e now) task_id =
        some { t with status := "error", error := some e, completed_at := now,
                      message := "Task failed: " ++ e }) ∧
    (SBA.lookupTask tasks task_id = none →
      SBA.setRunning tasks task_id = tasks ∧
      SBA.setCompleted tasks task_id r now = tasks ∧
      SBA.setError tasks task_id e now = tasks) := by
  constructor
  · intro t ht
    refine ⟨?_, ?_, ?_⟩ <;>
      simp [SBA.setRunning, SBA.setCompleted, SBA.setError,
        lookupTask_updateTask_self, ht]
  · intro h
    exact ⟨updateTask_of_lookupTask_none _ _ _ h,
      updateTask_of_lookupTask_none _ _ _ h,
      updateTask_of_lookupTask_none _ _ _ h⟩

/-- Witness for C5 amended: setError applied to a concrete completed
task overwrites it. -/
theorem mutators_overwrite_unconditionally_witness :
    SBA.lookupTask
        (SBA.setError [("t1", { task_id := "t1", status := "completed" })]
          "t1" "boom" 5) "t1" =
      some { task_id := "t1", status := "error", error := some "boom",
             completed_at := 5, message := "Task failed: boom" } := by
  have h := (mutators_overwrite_unconditionally
      [("t1", { task_id := "t1", status := "completed" })] "t1"
      { action := "a", message := "m", user_request := "u", timestamp := 0,
        status := "s" } "boom" 5).1
      { task_id := "t1", status := "completed" } rfl
  exact h.2.2

/-- Claim C1: while response_in_progress is true a speechStopped-triggered
delivery attempt sends nothing and leaves the pending buffer untouched,
in both the test_bidirectional and the realtime_service gate; once
response_in_progress is false the retained buffered content is delivered
exactly once (the immediately following attempt sends nothing). -/
theorem response_in_progress_defers_then_delivers_once
    (s : TB.TBState) (r : RS.RSState)
    (hs : s.response_in_progress = true) (hc : s.connection = true)
    (hp : s.pending_results ≠ [])
    (hr : r.response_in_progress = true) (hw : r.ws_connected = true)
    (hq : r.pending_results ≠ []) :
    TB.deliver_pending_results s = (s, none) ∧
    TB.deliver_pending_results { s with response_in_progress := false } =
      ({ s with response_in_progress := false, pending_results := [] },
       some (TB.combineMessages s.pending_results)) ∧
    TB.deliver_pending_results
        { s with response_in_progress := false, pending_results := [] } =
      ({ s with response_in_progress := false, pending_results := [] }, none) ∧
    RS.deliver_pending_results r = (r, none) ∧
    RS.deliver_pending_results { r with response_in_progress := false } =
      ({ r with response_in_progress := false, pending_results := [] },
       some (TB.combineMessages r.pending_results)) ∧
    RS.deliver_pending_results
        { r with response_in_progress := false, pending_results := [] } =
      ({ r with response_in_progress := false, pending_results := [] }, none) := by
  refine ⟨?_, ?_, ?_, ?_, ?_, ?_⟩ <;>
    simp [TB.deliver_pending_results, RS.deliver_pending_results,
      hs, hc, hp, hr, hw, hq]

/-- Witness for C1 at concrete states holding one buffered result. -/
theorem response_in_progress_defers_then_delivers_once_witness :
    TB.deliver_pending_results ⟨[⟨"success", "t1", "analysis A"⟩], true, false, true⟩ =
      (⟨[⟨"success", "t1", "analysis A"⟩], true, false, true⟩, none) ∧
    TB.deliver_pending_results ⟨[⟨"success", "t1", "analysis A"⟩], true, false, false⟩ =
      (⟨[], true, false, false⟩, some "analysis A") ∧
    TB.deliver_pending_results ⟨[], true, false, false⟩ =
      (⟨[], true, false, false⟩, none) ∧
    RS.deliver_pending_results ⟨[⟨"success", "t1", "analysis A"⟩], true, false, true⟩ =
      (⟨[⟨"success", "t1", "analysis A"⟩], true, false, true⟩, none) ∧
    RS.deliver_pending_results ⟨[⟨"success", "t1", "analysis A"⟩], true, false, false⟩ =
      (⟨[], true, false, false⟩, some "analysis A") ∧
    RS.deliver_pending_results ⟨[], true, false, false⟩ =
      (⟨[], true, false, false⟩, none) := by
  have h := response_in_progress_defers_then_delivers_once
    ⟨[⟨"success", "t1", "analysis A"⟩], true, false, true⟩
    ⟨[⟨"success", "t1", "analysis A"⟩], true, false, true⟩
    rfl rfl (by decide) rfl rfl (by decide)
  simpa [TB.combineMessages] using h

/-- Claim C3: drainForDelivery returns none on an empty buffer, the
single message verbatim on a one-item buffer, and on two or more items
one composite message made of the introductory line followed by one
bulleted line per item in push order; after a successful drain the
buffer is empty, so draining again before any push returns none.  The
first conjunct ties drainForDelivery to the source: a delivery attempt
that passes the gate is exactly a drain of the buffer. -/
theorem drainForDelivery_spec :
    (∀ s : TB.TBState, s.connection = true → s.response_in_progress = false →
      TB.deliver_pending_results s =
        ({ s with pending_results := (TB.drainForDelivery s.pending_results).2 },
         (TB.drainForDelivery s.pending_results).1)) ∧
    TB.drainForDelivery [] = (none, []) ∧
    (∀ x : TB.BufferedItem, TB.drainForDelivery [x] = (some x.message, [])) ∧
    (∀ buf : List TB.BufferedItem, 2 ≤ buf.length →
      TB.drainForDelivery buf =
        (some ("Here are the results from the background tasks:\n" ++
          String.intercalate "\n" (buf.map fun r => "• " ++ r.message)), [])) ∧
    (∀ buf : List TB.BufferedItem, buf ≠ [] →
      TB.drainForDelivery (TB.drainForDelivery buf).2 = (none, [])) := by
  refine ⟨?_, rfl, ?_, ?_, ?_⟩
  · intro s hc hr
    by_cases hp : s.pending_results = []
    · have hse : { s with pending_results := ([] : List TB.BufferedItem) } = s := by
        cases s
        simp_all
      simp [TB.deliver_pending_results, TB.drainForDelivery, hp, hse]
    · simp [TB.deliver_pending_results, TB.drainForDelivery, hp, hc, hr]
  · intro x
    simp [TB.drainForDelivery, TB.combineMessages]
  · intro buf hlen
    match buf, hlen with
    | a :: b :: l, _ =>
      simp [TB.drainForDelivery, TB.combineMessages]
  · intro buf hb
    simp [TB.drainForDelivery, hb]

/-- Witness for C3: a two-item drain produces the composite message and
empties the buffer; a following drain returns none. -/
theorem drainForDelivery_spec_witness :
    TB.drainForDelivery [⟨"success", "t1", "m1"⟩, ⟨"error", "t2", "m2"⟩] =
      (some "Here are the results from the background tasks:\n• m1\n• m2", []) ∧
    TB.drainForDelivery [] = (none, []) := by
  refine ⟨?_, drainForDelivery_spec.2.1⟩
  have h := drainForDelivery_spec.2.2.2.1
    [⟨"success", "t1", "m1"⟩, ⟨"error", "t2", "m2"⟩] (by decide)
  rw [h]
  rfl

/-- Counterexample for C7: with user_speaking already false, a further
speech_stopped event still schedules a delivery attempt, so attempts are
not restricted to the true-to-false transition. -/
theorem delivery_trigger_transition_counterexample :
    (⟨[⟨"success", "t1", "m1"⟩], true, false, false⟩ : TB.TBState).user_speaking = false ∧
    (TB.handleEvent ⟨[⟨"success", "t1", "m1"⟩], true, false, false⟩
      TB.VoiceEvent.speech_stopped).2 = true := by
  decide

/-- Claim C7 amended: a delivery attempt is scheduled on every
speech_stopped event, regardless of the previous user_speaking value,
and on no other gate event (speech_started, response_started,
response_done never attempt delivery). -/
theorem delivery_attempt_iff_speech_stopped (s : TB.TBState) (e : TB.VoiceEvent) :
    (TB.handleEvent s e).2 = true ↔ e = TB.VoiceEvent.speech_stopped := by
  cases e <;> simp [TB.handleEvent, TB.set_user_speaking]

/-- Counterexample for C4: polling a reaped task returns a not_found
snapshot, and on that snapshot the monitor loop body neither breaks nor
pushes anything; the loop keeps polling (here through five successive
not_found polls) instead of terminating. -/
theorem monitor_not_found_terminates_counterexample :
    TB.monitor_iteration "t9" (SBA.get_task_status [] "t9") =
      TB.MonitorStep.continue_loop ∧
    TB.monitor_task "t9" (List.replicate 5 (SBA.get_task_status [] "t9")) = none := by
  decide

/-- Claim C4 amended: when get_task_status keeps returning not_found the
monitor loop never pushes an item to the buffer, but it also never
terminates: it keeps polling, because not_found matches neither break
condition and nothing inside the loop removes the id from active_tasks. -/
theorem monitor_not_found_keeps_polling (task_id : String)
    (polls : List SBA.TaskResult)
    (h : ∀ p ∈ polls, p.status = "not_found") :
    TB.monitor_task task_id polls = none := by
  induction polls with
  | nil => rfl
  | cons q rest ih =>
    have hq := h q (by simp)
    have hrest : ∀ p ∈ rest, p.status = "not_found" := fun p hp => h p (by simp [hp])
    simp [TB.monitor_task, TB.monitor_iteration, hq, ih hrest]

/-- Witness for C4 amended at two concrete not_found polls. -/
theorem monitor_not_found_keeps_polling_witness :
    TB.monitor_task "t9" [SBA.notFoundTask "t9", SBA.notFoundTask "t9"] = none :=
  monitor_not_found_keeps_polling "t9" [SBA.notFoundTask "t9", SBA.notFoundTask "t9"]
    (by decide)

/-- Counterexample for C6: in test_bidirectional.py a delivery attempt
with no connection set performs no send but retains the buffer instead
of clearing it. -/
theorem dead_channel_clears_counterexample :
    (TB.deliver_pending_results ⟨[⟨"success", "t1", "m1"⟩], false, false, false⟩).1.pending_results =
      [⟨"success", "t1", "m1"⟩] ∧
    (TB.deliver_pending_results ⟨[⟨"success", "t1", "m1"⟩], false, false, false⟩).2 = none := by
  decide

/-- Claim C6 amended: with the output channel not connected no send is
ever performed; the realtime_service gate clears the pending buffer
(both when speech stops and inside a delivery attempt that reaches the
dead-channel check), while the test_bidirectional gate leaves the buffer
untouched (the attempt is deferred, not discarded). -/
theorem dead_channel_no_send (s : TB.TBState) (r : RS.RSState)
    (hs : s.connection = false) (hr : r.ws_connected = false) :
    TB.deliver_pending_results s = (s, none) ∧
    (RS.deliver_pending_results r).2 = none ∧
    (r.response_in_progress = false → r.pending_results ≠ [] →
      (RS.deliver_pending_results r).1.pending_results = []) ∧
    RS.set_user_speaking r false =
      ({ r with user_speaking := false, pending_results := [] }, none) := by
  refine ⟨?_, ?_, ?_, ?_⟩
  · simp [TB.deliver_pending_results, hs]
  · by_cases h : r.pending_results = [] ∨ r.response_in_progress = true <;>
      simp [RS.deliver_pending_results, h, hr]
  · intro h1 h2
    simp [RS.deliver_pending_results, h1, h2, hr]
  · simp [RS.set_user_speaking, hr]

/-- Witness for C6 amended at concrete dead-channel states holding one
buffered result. -/
theorem dead_channel_no_send_witness :
    TB.deliver_pending_results ⟨[⟨"success", "t1", "m1"⟩], false, false, false⟩ =
      (⟨[⟨"success", "t1", "m1"⟩], false, false, false⟩, none) ∧
    (RS.deliver_pending_results ⟨[⟨"success", "t1", "m1"⟩], false, true, false⟩).2 = none ∧
    (RS.deliver_pending_results ⟨[⟨"success", "t1", "m1"⟩], false, true, false⟩).1.pending_results = [] ∧
    RS.set_user_speaking ⟨[⟨"success", "t1", "m1"⟩], false, true, false⟩ false =
      (⟨[], false, false, false⟩, none) := by
  have h := dead_channel_no_send
    ⟨[⟨"success", "t1", "m1"⟩], false, false, false⟩
    ⟨[⟨"success", "t1", "m1"⟩], false, true, false⟩ rfl rfl
  exact ⟨h.1, h.2.1, h.2.2.1 rfl (by decide), h.2.2.2⟩

/-- Counterexample for C10: the realtime_service.py copy of the builder
does not produce the claimed fixed brain-emoji prefix; on a concrete
message its output differs from the claimed message and instead carries
the double-encoded prefix stored in that file. -/
theorem create_completion_message_mismatch_counterexample :
    RS.create_completion_message (some "m") ≠ "🧠 Conversation analysis: m" ∧
    RS.create_completion_message (some "m") = "\u00F0\u0178\u00A7\u00A0 Conversation analysis: m" ∧
    TB.create_completion_message (some "m") = "🧠 Conversation analysis: m" := by
  decide

/-- Claim C10 amended: both builders produce a fixed prefix followed by
the result message, where a message above 200 characters is cut to its
first 200 characters plus an ellipsis, so the analysis-text part after
the prefix never exceeds 203 characters; the prefix is the brain-emoji
line in test_bidirectional.py, while the copy in realtime_service.py
carries that file's double-encoded rendering of it, a different
string. -/
theorem create_completion_message_spec (result_message : Option String) :
    ∃ body,
      TB.create_completion_message result_message =
        "🧠 Conversation analysis: " ++ body ∧
      RS.create_completion_message result_message =
        "\u00F0\u0178\u00A7\u00A0 Conversation analysis: " ++ body ∧
      body.length ≤ 203 ∧
      ∀ m, result_message = some m →
        body = if m.length > 200 then m.take 200 ++ "..." else m := by
  refine ⟨(if (result_message.getD "Conversation insights gathered").length > 200 then
      (result_message.getD "Conversation insights gathered").take 200 ++ "..."
    else result_message.getD "Conversation insights gathered"), rfl, rfl, ?_, ?_⟩
  · by_cases h : (result_message.getD "Conversation insights gathered").length > 200
    · rw [if_pos h, String.length_append]
      have h1 : ((result_message.getD "Conversation insights gathered").take 200).length =
          min 200 (result_message.getD "Conversation insights gathered").length := by
        rw [String.take_eq]
        show ((result_message.getD "Conversation insights gathered").1.take 200).length = _
        rw [List.length_take]
        rfl
      have h2 : ("..." : String).length = 3 := rfl
      omega
    · rw [if_neg h]
      omega
  · rintro m rfl
    rfl

/-- Witness for C10 amended: a short message is delivered unchanged
behind each builder's own prefix. -/
theorem create_completion_message_spec_witness :
    TB.create_completion_message (some "analysis A") =
      "🧠 Conversation analysis: analysis A" ∧
    RS.create_completion_message (some "analysis A") =
      "\u00F0\u0178\u00A7\u00A0 Conversation analysis: analysis A" := by
  obtain ⟨body, h1, h2, h3, h4⟩ := create_completion_message_spec (some "analysis A")
  constructor
  · rw [h1, h4 "analysis A" rfl]
    rfl
  · rw [h2, h4 "analysis A" rfl]
    rfl
